import Mathlib

/-!
Verification development for the spoolman receipt importer
(src/src/spoolman_importer.py).  The Python source is embedded shallowly:
pure functions become Lean functions, the remote catalog HTTP transport is
an explicit environment (`Api`), and fallible calls return `Option` or a
`Bool` success flag.  Machine floats of the source appear here only as the
strings they are printed to (the marker embeds `str(price)`) or as exact
rationals (the loader); no floating point arithmetic is modelled.

String primitives are re-implemented over `List Char` (character maps and
folds) instead of the iterator based core `String` functions so that every
definition reduces in the kernel; for the ASCII data handled by the
importer they agree with Python `str.lower`, `str.upper`, `str.strip`,
`str.replace` and the `in` substring test.
-/

/-! ## String helpers (Python string primitives, ASCII semantics) -/

/-- Python `needle in hay` substring test on strings. -/
def containsSub (needle hay : String) : Bool :=
  decide (needle.data <:+: hay.data)

/-- Python `str.lower` (ASCII). -/
def lowerStr (s : String) : String :=
  String.mk (s.data.map Char.toLower)

/-- Python `str.upper` (ASCII). -/
def upperStr (s : String) : String :=
  String.mk (s.data.map Char.toUpper)

/-- Python `str.strip` (ASCII whitespace). -/
def trimStr (s : String) : String :=
  String.mk (((s.data.dropWhile Char.isWhitespace).reverse.dropWhile Char.isWhitespace).reverse)

/-- Last path component, as in Python `Path(source_filename).name`
(split on the separator, keep the final component). -/
def baseNameAux : List Char → List Char → List Char
  | acc, [] => acc
  | _, '/' :: rest => baseNameAux [] rest
  | acc, c :: rest => baseNameAux (acc ++ [c]) rest

/-- Python `Path(s).name` for ordinary file paths (no trailing separator). -/
def baseName (s : String) : String :=
  String.mk (baseNameAux [] s.data)

/-- Python `" | ".join(parts)` as used by `build_comment`. -/
def joinSep : List String → String
  | [] => ""
  | [x] => x
  | x :: y :: xs => x ++ " | " ++ joinSep (y :: xs)

/-! ## Identity scheme: `_generate_import_id` and `build_comment` -/

/-- A purchase record as passed to `import_filament` (a Python dict whose
keys are fixed by the loader and the vendor-data enrichment).  `price`
holds the string Python interpolates for the price value; temperatures and
the vendor description are already-rendered optional strings, which is all
`build_comment` consumes of them. -/
structure FilamentData where
  brand : String
  material : String
  color : String
  price : String
  quantity : Nat
  weight : Rat
  spool_weight : Option Rat
  extruder_temp : Option String
  bed_temp : Option String
  vendor_description : Option String
deriving DecidableEq

/-- `SpoolmanImporter._generate_import_id` (src/src/spoolman_importer.py:326). -/
def generate_import_id (source_filename : String) (fd : FilamentData) (index : Nat) : String :=
  "imported_from:" ++ baseName source_filename ++ "|item:" ++
    fd.brand ++ "-" ++ fd.material ++ "-" ++ fd.color ++ "-" ++ fd.price ++
    "|index:" ++ Nat.repr index

/-- The part of the marker that does not depend on the index. -/
def markerStem (source_filename : String) (fd : FilamentData) : String :=
  "imported_from:" ++ baseName source_filename ++ "|item:" ++
    fd.brand ++ "-" ++ fd.material ++ "-" ++ fd.color ++ "-" ++ fd.price ++
    "|index:"

/-- Python truthiness of an optional string (`None` and `""` are falsy). -/
def truthyS : Option String → Bool
  | none => false
  | some s => s ≠ ""

/-- `SpoolmanImporter.build_comment` (src/src/spoolman_importer.py:503).
`today` stands for `datetime.now().strftime(...)`. -/
def build_comment (today : String) (fd : FilamentData) (import_id : Option String) : String :=
  let parts₁ := ["Imported on " ++ today]
  let parts₂ := parts₁ ++
    (if truthyS fd.extruder_temp && truthyS fd.bed_temp then
      ["Temps: " ++ fd.extruder_temp.getD "" ++ "°C/" ++ fd.bed_temp.getD "" ++ "°C"]
     else [])
  let parts₃ := parts₂ ++
    (if truthyS fd.vendor_description then [fd.vendor_description.getD ""] else [])
  let parts₄ := parts₃ ++
    (match import_id with
     | some mid => if mid ≠ "" then ["ImportID: [" ++ mid ++ "]"] else []
     | none => [])
  joinSep parts₄

/-! ## Catalog model and `import_filament` -/

/-- A catalog entry (Spoolman filament) as returned by the API: an id, the
owning vendor id (absent when the response has no vendor object), and the
entry name. -/
structure Filament where
  id : Nat
  vendorId : Option Nat
  name : String
deriving DecidableEq

/-- A catalog instance (Spoolman spool); `comment` is the free-text field
carrying the import marker. -/
structure Spool where
  filamentId : Nat
  remaining_weight : Rat
  spool_weight : Option Rat
  comment : String
deriving DecidableEq

/-- The remote catalog transport for one `import_filament` call: the GET
response for the spools of an entry, the outcome of the one possible
filament POST (`some f` = 2xx with the created entity, `none` = error
caught by the except branch), the success of the spool POST issued at loop
index `i`, and the current date used by `build_comment`. -/
structure Api where
  spools : Nat → List Spool
  filamentPost : Option Filament
  spoolPostOk : Nat → Bool
  today : String

/-- `SpoolmanImporter.find_existing_filament` (src/src/spoolman_importer.py:307):
first entry with the given vendor id and a case-insensitive name match
against `material` + " " + `color`. -/
def find_existing_filament (fd : FilamentData) (vendor_id : Nat) (existing : List Filament) :
    Option Filament :=
  let filament_name := fd.material ++ " " ++ fd.color
  existing.find? (fun f => f.vendorId == some vendor_id &&
    lowerStr f.name == lowerStr filament_name)

/-- The spool payload POSTed at loop index `i`
(src/src/spoolman_importer.py:395, including the truthiness guard on
`spool_weight`). -/
def mkSpool (today : String) (fd : FilamentData) (fid : Nat) (mid : String) : Spool :=
  { filamentId := fid
    remaining_weight := fd.weight
    spool_weight := match fd.spool_weight with
      | some w => if w ≠ 0 then some w else none
      | none => none
    comment := build_comment today fd (some mid) }

/-- The duplicate test of the spool loop
(src/src/spoolman_importer.py:389): some existing spool comment contains
the marker as a substring. -/
def isDupB (existing_spools : List Spool) (mid : String) : Bool :=
  existing_spools.any (fun s => containsSub mid s.comment)

/-- The spool-creation loop of `import_filament`
(src/src/spoolman_importer.py:384-417).  The whole loop runs inside one
`try`, so the first failing POST raises out of the loop and the function
returns `False` at once.  Result: overall success flag, loop indices at
which a POST was issued, spools actually created (successful POSTs). -/
def spoolLoop (api : Api) (fd : FilamentData) (src : String) (fid : Nat)
    (existing_spools : List Spool) : List Nat → Bool × List Nat × List Spool
  | [] => (true, [], [])
  | i :: rest =>
    let mid := generate_import_id src fd i
    if isDupB existing_spools mid then
      spoolLoop api fd src fid existing_spools rest
    else if api.spoolPostOk i then
      let r := spoolLoop api fd src fid existing_spools rest
      (r.1, i :: r.2.1, mkSpool api.today fd fid mid :: r.2.2)
    else
      (false, [i], [])

/-- Outcome of one `import_filament` call: return value, the in-memory
existing-entries list after the call, how many filament POSTs were issued,
the catalog entry id the spool phase ran against, the loop indices POSTed,
and the spools created. -/
structure ImportResult where
  success : Bool
  existing : List Filament
  filamentCreates : Nat
  filamentId : Option Nat
  posted : List Nat
  newSpools : List Spool
deriving DecidableEq

/-- `SpoolmanImporter.import_filament` (src/src/spoolman_importer.py:341-417).
The filament POST payload (name, color, density, comment enrichment) does
not influence any control flow here, so only the server response to it is
modelled, through `api.filamentPost`. -/
def import_filament (api : Api) (fd : FilamentData) (vendor_id : Nat)
    (existing : List Filament) (src : String) : ImportResult :=
  match find_existing_filament fd vendor_id existing with
  | some f =>
    let r := spoolLoop api fd src f.id (api.spools f.id) (List.range fd.quantity)
    { success := r.1, existing := existing, filamentCreates := 0,
      filamentId := some f.id, posted := r.2.1, newSpools := r.2.2 }
  | none =>
    match api.filamentPost with
    | none =>
      { success := false, existing := existing, filamentCreates := 1,
        filamentId := none, posted := [], newSpools := [] }
    | some nf =>
      let r := spoolLoop api fd src nf.id (api.spools nf.id) (List.range fd.quantity)
      { success := r.1, existing := existing ++ [nf], filamentCreates := 1,
        filamentId := some nf.id, posted := r.2.1, newSpools := r.2.2 }

/-! ## ReferenceData: material classifier, vendor attributes, color lookup -/

/-- `SpoolmanImporter.extract_base_material` (src/src/spoolman_importer.py:185-205). -/
def extract_base_material (material : String) : String :=
  let material_upper := upperStr material
  if containsSub "PLA" material_upper then "PLA"
  else if containsSub "PETG" material_upper then "PETG"
  else if containsSub "ABS" material_upper then "ABS"
  else if containsSub "ASA" material_upper then "ASA"
  else if containsSub "TPU" material_upper then "TPU"
  else if containsSub "WOOD" material_upper then "WOOD"
  else if containsSub "SILK" material_upper then "SILK"
  else "PLA"

/-- The fixed category list of the spec, in its check order. -/
def baseCategories : List String :=
  ["PLA", "PETG", "ABS", "ASA", "TPU", "WOOD", "SILK"]

/-- The classifier as the spec words it: first member of the fixed list
occurring as a substring of the upper-cased input, defaulting to PLA. -/
def baseCategorySpec (material : String) : String :=
  ((baseCategories.find? (fun c => containsSub c (upperStr material))).getD "PLA")

/-- One value of a vendor-data attribute record (JSON-derived: numbers or
strings; the attributes the code consumes are numeric, descriptions are
strings). -/
inductive AttrVal where
  | num (x : Rat)
  | str (s : String)
deriving DecidableEq

/-- An attribute record: an insertion-ordered Python dict with string keys. -/
abbrev AttrRec := List (String × AttrVal)

/-- Python `rec[k]` / `rec.get(k)` on an attribute record. -/
def lookupA (k : String) (r : AttrRec) : Option AttrVal :=
  (r.find? (fun p => p.1 == k)).map (fun p => p.2)

/-- Python `k in rec`. -/
def hasKey (k : String) (r : AttrRec) : Bool :=
  r.any (fun p => p.1 == k)

/-- Python truthiness of a maybe-found dict (`None` and `{}` are falsy). -/
def truthyRec : Option AttrRec → Bool
  | none => false
  | some r => !r.isEmpty

/-- The two lookup tables of vendor-data.json: brand name to material name
to attribute record, and base-category name to default attribute record. -/
structure VendorData where
  vendors : List (String × List (String × AttrRec))
  material_defaults : List (String × AttrRec)

/-- First branch of `get_vendor_filament_data`
(src/src/spoolman_importer.py:72-92): exact lower-cased brand match, then a
case-insensitive exact material match, else the first material key that
contains the query material as a substring (case-insensitively). -/
def vendorBranch1 (vendors : List (String × List (String × AttrRec)))
    (brand_normalized material_normalized : String) : Option AttrRec :=
  if vendors.any (fun v => lowerStr v.1 == brand_normalized) then
    match vendors.find? (fun v => lowerStr v.1 == brand_normalized) with
    | none => none
    | some (_, vendor_materials) =>
      match vendor_materials.find?
          (fun p => lowerStr p.1 == lowerStr material_normalized) with
      | some p => some p.2
      | none =>
        match vendor_materials.find?
            (fun p => containsSub (lowerStr material_normalized) (lowerStr p.1)) with
        | some p => some p.2
        | none => none
  else none

/-- Second branch of `get_vendor_filament_data`
(src/src/spoolman_importer.py:94-109): scan all vendors; on a lower-cased
brand-name match, a case-sensitive exact key lookup with the upper-cased
material breaks out immediately, else the first upper-cased-substring
material match is kept but the scan moves on when that record is falsy
(the Python loop only breaks on `if vendor_data:`). -/
def vendorBranch2 (brand_normalized material_normalized : String) :
    List (String × List (String × AttrRec)) → Option AttrRec → Option AttrRec
  | [], acc => acc
  | (vendor_name, vendor_materials) :: rest, acc =>
    if lowerStr vendor_name == lowerStr brand_normalized then
      match vendor_materials.find? (fun p => p.1 == material_normalized) with
      | some p => some p.2
      | none =>
        let acc₂ := match vendor_materials.find?
            (fun p => containsSub material_normalized (upperStr p.1)) with
          | some p => some p.2
          | none => acc
        if truthyRec acc₂ then acc₂
        else vendorBranch2 brand_normalized material_normalized rest acc₂
    else vendorBranch2 brand_normalized material_normalized rest acc

/-- The defaults merge of `get_vendor_filament_data`
(src/src/spoolman_importer.py:111-119): add each default key not already
present; vendor values are never overwritten. -/
def enrichWithDefaults (vendor_rec defaults : AttrRec) : AttrRec :=
  vendor_rec ++ defaults.filter (fun p => !hasKey p.1 vendor_rec)

/-- The fixed constant record of the ultimate fallback
(src/src/spoolman_importer.py:131-138). -/
def ultimateFallback (brand material : String) : AttrRec :=
  [("density", AttrVal.num 1.24),
   ("spool_weight", AttrVal.num 250),
   ("extruder_temp", AttrVal.num 220),
   ("bed_temp", AttrVal.num 60),
   ("description", AttrVal.str ("Default values for " ++ brand ++ " " ++ material))]

/-- The non-interactive tail of `get_vendor_filament_data`
(src/src/spoolman_importer.py:126-138): base-category defaults when the
defaults table has the category, else the constant fallback. -/
def nonVendorFallback (vd : VendorData) (brand material material_normalized : String) : AttrRec :=
  let base_material := extract_base_material material_normalized
  match vd.material_defaults.find? (fun p => p.1 == base_material) with
  | some p => p.2
  | none => ultimateFallback brand material

/-- The vendor-record resolution of `get_vendor_filament_data`
(src/src/spoolman_importer.py:70-109): first branch, then, behind the
`if not vendor_data:` truthiness guard of line 95, the second branch
threading the value the first produced.  Together with
`get_vendor_filament_data` below this models the function with
`interactive=False` (the interactive branch at lines 122-124 defers to
terminal input and is exercised by the pipeline model through an oracle);
in non-interactive mode the function always returns a record.  The
`if vendor_data:` guard at line 112 is again a truthiness test, so an
empty matched record falls through to the defaults. -/
def vendorDataResolved (vd : VendorData) (brand_normalized material_normalized : String) :
    Option AttrRec :=
  let vd₁ := vendorBranch1 vd.vendors brand_normalized material_normalized
  if truthyRec vd₁ then vd₁
  else vendorBranch2 brand_normalized material_normalized vd.vendors vd₁

/-- The remainder of `get_vendor_filament_data` after the two matching
branches: defaults merge on a truthy vendor record, fallback chain
otherwise. -/
def get_vendor_filament_data (vd : VendorData) (brand material : String) : AttrRec :=
  let brand_normalized := lowerStr (trimStr brand)
  let material_normalized := trimStr (upperStr material)
  match vendorDataResolved vd brand_normalized material_normalized with
  | some rec =>
    if !rec.isEmpty then
      let base_material := extract_base_material material_normalized
      match vd.material_defaults.find? (fun p => p.1 == base_material) with
      | some p => enrichWithDefaults rec p.2
      | none => rec
    else
      nonVendorFallback vd brand material material_normalized
  | none => nonVendorFallback vd brand material material_normalized

/-! ## Color lookup: `get_color_hex` -/

/-- The normalization of `get_color_hex`
(src/src/spoolman_importer.py:450): lower-case, then replace spaces by
hyphens.  Both steps are per-character here, which coincides with Python
`.lower().replace(" ", "-")` on ASCII input. -/
def normalizeColor (color_name : String) : String :=
  String.mk (color_name.data.map (fun c => if c = ' ' then '-' else c.toLower))

/-- Stable insertion, descending by key length, keeping the earlier
element first on ties; this is the order Python
`sorted(keys, key=len, reverse=True)` produces (a stable sort). -/
def insertLenDesc (x : String × String) : List (String × String) → List (String × String)
  | [] => [x]
  | y :: ys => if y.1.length ≤ x.1.length then x :: y :: ys else y :: insertLenDesc x ys

/-- Python `sorted(colors.keys(), key=len, reverse=True)` on the table,
values carried along. -/
def sortKeysDesc : List (String × String) → List (String × String)
  | [] => []
  | x :: xs => insertLenDesc x (sortKeysDesc xs)

/-- `SpoolmanImporter.get_color_hex` with `interactive=False`
(src/src/spoolman_importer.py:442-466): empty name is falsy and yields
`None`; exact match on the normalized name; otherwise the first table key,
scanned longest-first, that is a substring of the normalized name;
otherwise `None` in non-interactive mode. -/
def get_color_hex (colors : List (String × String)) (color_name : String) : Option String :=
  if color_name = "" then none
  else
    let normalized_color_name := normalizeColor color_name
    match colors.find? (fun kv => kv.1 == normalized_color_name) with
    | some kv => some kv.2
    | none =>
      match (sortKeysDesc colors).find?
          (fun kv => containsSub kv.1 normalized_color_name) with
      | some kv => some kv.2
      | none => none

/-- The repository color table, reconstructed from the assertions of
src/tests/test_spoolman_importer.py (the resource file
resources/color-data.json is not part of src/): Red is an exact entry with
value #FF0000, black one with #000000, light-blue one with #ADD8E6,
galaxy-black one with #2E2E2E, and blue one with #0000FF reached for
"Deep Blue" through the substring scan, while "Chartreuse" matches
nothing. -/
def colorTable : List (String × String) :=
  [("red", "#FF0000"),
   ("black", "#000000"),
   ("blue", "#0000FF"),
   ("light-blue", "#ADD8E6"),
   ("galaxy-black", "#2E2E2E")]

/-! ## Structured-input loader: `load_filaments_from_json` -/

/-- A JSON value as Python json.load presents it (numbers kept exact). -/
inductive JVal where
  | num (x : Rat)
  | str (s : String)
  | bool (b : Bool)
  | null
  | arr (xs : List JVal)
  | obj (kvs : List (String × JVal))

/-- Python `d.get(k, default)` on a JSON object. -/
def objGetD (kvs : List (String × JVal)) (k : String) (default : JVal) : JVal :=
  match kvs.find? (fun p => p.1 == k) with
  | some p => p.2
  | none => default

/-- Python truthiness of a JSON value. -/
def pyTruthy : JVal → Bool
  | .num x => x ≠ 0
  | .str s => s ≠ ""
  | .bool b => b
  | .null => false
  | .arr xs => !xs.isEmpty
  | .obj kvs => !kvs.isEmpty

/-- All-digit characters to their value. -/
def digitsVal : List Char → Nat
  | [] => 0
  | cs => cs.foldl (fun a c => 10 * a + (c.toNat - 48)) 0

/-- Split a character list at the first dot. -/
def splitDot : List Char → List Char × Option (List Char)
  | [] => ([], none)
  | '.' :: rest => ([], some rest)
  | c :: rest =>
    let r := splitDot rest
    (c :: r.1, r.2)

/-- Python `float(s)` for plain decimal literals with optional sign and at
most one dot (s already stripped; scientific notation, inf and nan are out
of scope for the inputs the claims exercise, and in Python they parse to
values that play no role here). -/
def pyFloatOfChars : List Char → Option Rat
  | [] => none
  | cs =>
    let body := match cs with
      | '-' :: rest => some (true, rest)
      | '+' :: rest => some (false, rest)
      | _ => some (false, cs)
    match body with
    | none => none
    | some (neg, digits) =>
      let sd := splitDot digits
      match sd.2 with
      | none =>
        if digits ≠ [] && digits.all Char.isDigit then
          some (if neg then -(digitsVal digits : Rat) else (digitsVal digits : Rat))
        else none
      | some frac =>
        if (sd.1 ++ frac) ≠ [] && (sd.1 ++ frac).all Char.isDigit then
          let v : Rat := (digitsVal sd.1 : Rat) + (digitsVal frac : Rat) / ((10 : Rat) ^ frac.length)
          some (if neg then -v else v)
        else none

/-- Python `float(x)` on a JSON value: numbers pass through, booleans
coerce, numeric strings parse (stripped), everything else raises. -/
def pyFloat : JVal → Option Rat
  | .num x => some x
  | .bool b => some (if b then 1 else 0)
  | .str s => pyFloatOfChars (trimStr s).data
  | _ => none

/-- Python `int(x)` on a JSON value: numbers truncate toward zero, booleans
coerce, integer-literal strings parse, everything else (including float
strings) raises. -/
def pyInt : JVal → Option Int
  | .num x => some (Int.tdiv x.num (Int.ofNat x.den))
  | .bool b => some (if b then 1 else 0)
  | .str s =>
    (match (trimStr s).data with
     | [] => none
     | '-' :: ds => if ds ≠ [] && ds.all Char.isDigit then some (-(digitsVal ds : Int)) else none
     | '+' :: ds => if ds ≠ [] && ds.all Char.isDigit then some ((digitsVal ds : Int)) else none
     | ds => if ds.all Char.isDigit then some ((digitsVal ds : Int)) else none)
  | _ => none

/-- One record of the validated output of `load_filaments_from_json`
(src/src/spoolman_importer.py:561-570).  The brand, material and color
values are carried unconverted, as the Python code does. -/
structure ValidatedFilament where
  brand : JVal
  material : JVal
  color : JVal
  diameter : Rat
  weight : Rat
  price : Rat
  quantity : Int
  spool_weight : Option Rat

/-- The per-record conversion inside the validation loop
(src/src/spoolman_importer.py:561-570); `none` is the raised ValueError or
TypeError of a failing `float`/`int` call. -/
def parseFields (kvs : List (String × JVal)) : Option ValidatedFilament := do
  let diameter ← pyFloat (objGetD kvs "diameter" (JVal.num 1.75))
  let weight ← pyFloat (objGetD kvs "weight" (JVal.num 1000))
  let price ← pyFloat (objGetD kvs "price" (JVal.num 0))
  let quantity ← pyInt (objGetD kvs "quantity" (JVal.num 1))
  let sw := objGetD kvs "spool_weight" JVal.null
  let spool_weight ← if pyTruthy sw then (pyFloat sw).map some else some none
  pure { brand := objGetD kvs "brand" (JVal.str "Unknown")
         material := objGetD kvs "material" (JVal.str "PLA")
         color := objGetD kvs "color" (JVal.str "Unknown")
         diameter := diameter, weight := weight, price := price
         quantity := quantity, spool_weight := spool_weight }

/-- The validation loop of `load_filaments_from_json`
(src/src/spoolman_importer.py:554-571): a non-dict element is skipped with
a warning and the loop continues; a failing numeric conversion raises out
of the loop and is caught by the function-level except, so the whole call
returns the empty list (`none` here). -/
def validateLoop : List JVal → Option (List ValidatedFilament)
  | [] => some []
  | v :: rest =>
    match v with
    | .obj kvs =>
      match parseFields kvs with
      | some vf => (validateLoop rest).map (fun l => vf :: l)
      | none => none
    | _ => validateLoop rest

/-- `SpoolmanImporter.load_filaments_from_json`
(src/src/spoolman_importer.py:538-583) applied to the decoded JSON
document: a top-level array, or an object with a `filaments` array; any
other shape, and any raised conversion error, produces the empty list.
(When the `filaments` value is not a list the Python run also ends with an
empty result, through all-skips or a caught TypeError.) -/
def load_filaments_from_json (data : JVal) : List ValidatedFilament :=
  match data with
  | .arr xs => (validateLoop xs).getD []
  | .obj kvs =>
    match objGetD kvs "filaments" JVal.null with
    | .arr xs => (validateLoop xs).getD []
    | _ => []
  | _ => []

/-! ## Import pipeline: `process_receipt` -/

/-- Rendering of an attribute value into the string an f-string would
interpolate (numeric formatting differs cosmetically from Python float
formatting; it only ever feeds the human-readable comment text, never the
marker). -/
def renderAttrVal : AttrVal → String
  | .num x =>
    (if x.num < 0 then "-" ++ Nat.repr x.num.natAbs else Nat.repr x.num.natAbs) ++
      (if x.den = 1 then "" else "/" ++ Nat.repr x.den)
  | .str s => s

/-- The in-place enrichment `filament.update(vendor_data)` followed by the
`spool_weight` backfill (src/src/spoolman_importer.py:633-635): keys
present in the vendor record overwrite the record fields (numeric
spool-weight records assumed, as in the repository data); the marker
fields brand, material, color, price and the quantity carry no vendor-data
keys and stay untouched. -/
def update_fd (fd : FilamentData) (rec : AttrRec) : FilamentData :=
  { fd with
    spool_weight := match lookupA "spool_weight" rec with
      | some (.num x) => some x
      | _ => fd.spool_weight
    extruder_temp := match lookupA "extruder_temp" rec with
      | some v => some (renderAttrVal v)
      | none => fd.extruder_temp
    bed_temp := match lookupA "bed_temp" rec with
      | some v => some (renderAttrVal v)
      | none => fd.bed_temp
    vendor_description := match lookupA "vendor_description" rec with
      | some v => some (renderAttrVal v)
      | none => fd.vendor_description }

/-- Per-record collaborator outcomes of the import loop
(src/src/spoolman_importer.py:622-644), indexed by the record position in
the batch: the result of the interactive `get_vendor_filament_data` call
(`none` is the user-stop sentinel, which skips the record), the result of
`get_or_create_vendor` (`none` skips the record), whether that call had to
POST a new vendor, how many interactive prompts the attribute and color
resolution consumed, and the transport for `import_filament`. -/
structure BatchEnv where
  vendor_data : Nat → Option AttrRec
  vendor_id : Nat → Option Nat
  vendorCreated : Nat → Bool
  resolutionPrompts : Nat → Nat
  api : Nat → Api
  fallbackVendor : Option String

/-- Running tally of the batch loop. -/
structure BatchAcc where
  successCount : Nat
  vendorPosts : Nat
  filamentPosts : Nat
  spoolPosts : Nat
  prompts : Nat
deriving DecidableEq

/-- The per-record loop of `process_receipt`
(src/src/spoolman_importer.py:622-644), threading the in-memory
existing-entries list from record to record.  `k` is the absolute position
of the head record in the batch. -/
def runBatchAux (benv : BatchEnv) (src : String) :
    List FilamentData → Nat → List Filament → BatchAcc → BatchAcc × List Filament
  | [], _, ex, acc => (acc, ex)
  | fd :: rest, k, ex, acc =>
    let vendorPrompt := if fd.brand = "" && benv.fallbackVendor.getD "" = "" then 1 else 0
    let acc₁ := { acc with prompts := acc.prompts + vendorPrompt + benv.resolutionPrompts k }
    match benv.vendor_data k with
    | none => runBatchAux benv src rest (k + 1) ex acc₁
    | some rec =>
      match benv.vendor_id k with
      | none => runBatchAux benv src rest (k + 1) ex acc₁
      | some vid =>
        let r := import_filament (benv.api k) (update_fd fd rec) vid ex src
        runBatchAux benv src rest (k + 1) r.existing
          { acc₁ with
            successCount := acc₁.successCount + (if r.success then 1 else 0)
            vendorPosts := acc₁.vendorPosts + (if benv.vendorCreated k then 1 else 0)
            filamentPosts := acc₁.filamentPosts + r.filamentCreates
            spoolPosts := acc₁.spoolPosts + r.posted.length }

/-- Outcome of one `process_receipt` call: the boolean return value and
the write calls (POSTs) and interactive prompts the call issued. -/
structure PipeResult where
  success : Bool
  succeeded : Nat
  vendorPosts : Nat
  filamentPosts : Nat
  spoolPosts : Nat
  prompts : Nat
deriving DecidableEq

/-- `SpoolmanImporter.process_receipt` over already-loaded records
(src/src/spoolman_importer.py:585-646).  The initial catalog fetch is a
read; an empty record list returns failure before the dry-run check; in
dry-run mode the function prints the preview and returns immediately after
normalization (line 616-619), before the per-record loop, so no POST and
no prompt is reachable; otherwise the loop runs and the call reports
success when at least one record succeeded. -/
def process_receipt (benv : BatchEnv) (existing : List Filament)
    (records : List FilamentData) (src : String) (dry_run : Bool) : PipeResult :=
  if records.isEmpty then
    { success := false, succeeded := 0, vendorPosts := 0, filamentPosts := 0,
      spoolPosts := 0, prompts := 0 }
  else if dry_run then
    { success := true, succeeded := 0, vendorPosts := 0, filamentPosts := 0,
      spoolPosts := 0, prompts := 0 }
  else
    let r := runBatchAux benv src records 0 existing
      { successCount := 0, vendorPosts := 0, filamentPosts := 0, spoolPosts := 0, prompts := 0 }
    { success := decide (0 < r.1.successCount), succeeded := r.1.successCount,
      vendorPosts := r.1.vendorPosts, filamentPosts := r.1.filamentPosts,
      spoolPosts := r.1.spoolPosts, prompts := r.1.prompts }

/-- A record is fully duplicate for a catalog state: the entry is found by
the natural key and, for every index below the quantity, the marker occurs
in the comment of some existing spool of that entry. -/
def fullyDupB (api : Api) (fd : FilamentData) (vendor_id : Nat)
    (existing : List Filament) (src : String) : Bool :=
  match find_existing_filament fd vendor_id existing with
  | none => false
  | some f =>
    (List.range fd.quantity).all (fun i =>
      isDupB (api.spools f.id) (generate_import_id src fd i))

/-- A batch record at position `k` is fully duplicate: its collaborator
outcomes resolve, and the enriched record is fully duplicate for the
catalog state. -/
def recordFullyDup (benv : BatchEnv) (existing : List Filament) (src : String)
    (k : Nat) (fd : FilamentData) : Bool :=
  match benv.vendor_data k with
  | none => false
  | some rec =>
    match benv.vendor_id k with
    | none => false
    | some vid => fullyDupB (benv.api k) (update_fd fd rec) vid existing src

/-- All four always-resolvable attributes are present in a record. -/
def hasAll4 (r : AttrRec) : Bool :=
  hasKey "density" r && hasKey "spool_weight" r &&
    hasKey "extruder_temp" r && hasKey "bed_temp" r

/-- The value a loader element contributes when no conversion raises. -/
def recParse : JVal → Option ValidatedFilament
  | .obj kvs => parseFields kvs
  | _ => none

/-- A loader element that raises no conversion error (non-objects are
skipped, objects must convert). -/
def recLoadable : JVal → Bool
  | .obj kvs => (parseFields kvs).isSome
  | _ => true

/-! ## Concrete fixtures for witnesses and counterexamples -/

/-- A one-spool purchase record, matching the scenario of
src/tests/test_spoolman_importer.py. -/
def fxFd : FilamentData :=
  { brand := "TestVendor", material := "PLA", color := "Red", price := "0.0",
    quantity := 1, weight := 1000, spool_weight := none,
    extruder_temp := none, bed_temp := none, vendor_description := none }

/-- The catalog entry PLA Red of vendor 1. -/
def fxEntry : Filament := { id := 101, vendorId := some 1, name := "PLA Red" }

/-- Transport whose spool list already carries the marker of `fxFd` at
index 0, as in the re-import test. -/
def fxApiDup : Api :=
  { spools := fun _ =>
      [{ filamentId := 101, remaining_weight := 0, spool_weight := none,
         comment := "ImportID: [imported_from:dummy.json|item:TestVendor-PLA-Red-0.0|index:0]" }]
    filamentPost := none
    spoolPostOk := fun _ => true
    today := "2024-01-01" }

/-- A two-spool record for the second-run scenario. -/
def fxFd2 : FilamentData := { fxFd with quantity := 2 }

/-- First-run transport for the second-run scenario: empty catalog, entry
creation succeeds with id 5, every spool POST succeeds. -/
def fxApiRun1 : Api :=
  { spools := fun _ => []
    filamentPost := some { id := 5, vendorId := some 1, name := "PLA Red" }
    spoolPostOk := fun _ => true
    today := "2024-01-01" }

/-- Second-run transport: the spools of the first run are now in the
catalog (and the in-memory entry list of the second run holds the entry
the first run created). -/
def fxApiRun2 : Api :=
  { spools := fun j => fxApiRun1.spools j ++ (import_filament fxApiRun1 fxFd2 1 [] "receipt.json").newSpools
    filamentPost := none
    spoolPostOk := fun _ => true
    today := "2024-01-02" }

/-- The entry list the second run fetches. -/
def fxEx2 : List Filament := [{ id := 5, vendorId := some 1, name := "PLA Red" }]

/-- A three-spool record for the failing-write scenario. -/
def fxFd3 : FilamentData := { fxFd with quantity := 3 }

/-- Transport whose spool POST fails at loop index 0 and would succeed at
the later indices. -/
def fxApiFail0 : Api :=
  { spools := fun _ => []
    filamentPost := none
    spoolPostOk := fun i => decide (i ≠ 0)
    today := "2024-01-01" }

/-- The entry list for the failing-write scenario. -/
def fxEx3 : List Filament := [{ id := 7, vendorId := some 1, name := "PLA Red" }]

/-- A loader record that parses fine with all defaults. -/
def fxGoodRec : JVal := JVal.obj [("brand", JVal.str "A")]

/-- A loader record whose diameter fails `float()`. -/
def fxBadRec : JVal := JVal.obj [("diameter", JVal.str "abc")]

/-- A loader element that is not an object (skipped with a warning). -/
def fxSkipRec : JVal := JVal.str "junk"

/-- Vendor tables with a partial vendor record and no category defaults. -/
def fxVDPartial : VendorData :=
  { vendors := [("X", [("PLA", [("spool_weight", AttrVal.num 200)])])]
    material_defaults := [] }

/-- The complete vendor tables of the unit-test mock
(src/tests/test_spoolman_importer.py:14-39). -/
def fxVDComplete : VendorData :=
  { vendors := [("TestVendor",
      [("PLA", [("spool_weight", AttrVal.num 200), ("extruder_temp", AttrVal.num 210),
                ("bed_temp", AttrVal.num 60), ("density", AttrVal.num 1.24)])])]
    material_defaults :=
      [("PLA", [("spool_weight", AttrVal.num 250), ("extruder_temp", AttrVal.num 220),
                ("bed_temp", AttrVal.num 60), ("density", AttrVal.num 1.24)]),
       ("PETG", [("spool_weight", AttrVal.num 250), ("extruder_temp", AttrVal.num 240),
                 ("bed_temp", AttrVal.num 80), ("density", AttrVal.num 1.27)])] }

/-- Batch environment for the fully-duplicate re-run: attribute resolution
returns an empty enrichment, the vendor resolves to id 1 without a POST,
and the transport already carries the marker. -/
def fxBenv : BatchEnv :=
  { vendor_data := fun _ => some []
    vendor_id := fun _ => some 1
    vendorCreated := fun _ => false
    resolutionPrompts := fun _ => 0
    api := fun _ => fxApiDup
    fallbackVendor := none }

/-! ## Helper lemmas: substrings, markers, comments -/

theorem containsSub_iff (needle hay : String) :
    containsSub needle hay = true ↔ needle.data <:+: hay.data := by
  unfold containsSub
  exact decide_eq_true_iff

theorem sub_extend_right {l t r : List Char} (h : l <:+: t) : l <:+: t ++ r := by
  obtain ⟨u, v, huv⟩ := h
  exact ⟨u, v ++ r, by rw [← huv]; simp [List.append_assoc]⟩

theorem sub_extend_left {l t r : List Char} (h : l <:+: t) : l <:+: r ++ t := by
  obtain ⟨u, v, huv⟩ := h
  exact ⟨r ++ u, v, by rw [← huv]; simp [List.append_assoc]⟩

theorem marker_stem_split (src : String) (fd : FilamentData) (i : Nat) :
    generate_import_id src fd i = markerStem src fd ++ Nat.repr i := rfl

/-- The marker never is the empty string. -/
theorem marker_ne_empty (src : String) (fd : FilamentData) (i : Nat) :
    generate_import_id src fd i ≠ "" := by
  intro h
  have hdata := congrArg String.data h
  simp only [generate_import_id, String.data_append] at hdata
  simp at hdata

/-- `joinSep` keeps the last part as a suffix-side block, so anything
inside the last part stays inside the joined string. -/
theorem sub_joinSep_last (s : List Char) :
    ∀ (parts : List String) (y : String), s <:+: y.data → s <:+: (joinSep (parts ++ [y])).data := by
  intro parts
  induction parts with
  | nil => intro y h; simpa [joinSep] using h
  | cons x ps ih =>
    intro y h
    have hne : ps ++ [y] ≠ [] := by simp
    have hstep : joinSep (x :: (ps ++ [y])) = x ++ " | " ++ joinSep (ps ++ [y]) := by
      cases ps with
      | nil => rfl
      | cons a as => rfl
    rw [List.cons_append, hstep, String.data_append]
    exact sub_extend_left (ih y h)

/-- The marker occurs verbatim in the comment built for it. -/
theorem marker_in_build_comment (today : String) (fd : FilamentData)
    (mid : String) (hne : mid ≠ "") :
    containsSub mid (build_comment today fd (some mid)) = true := by
  rw [containsSub_iff]
  unfold build_comment
  simp only [hne, if_pos, ne_eq, not_false_iff]
  rw [List.append_assoc, List.append_assoc]
  have hmid : mid.data <:+: ("ImportID: [" ++ mid ++ "]").data := by
    rw [String.data_append, String.data_append]
    exact List.infix_append _ _ _
  have := sub_joinSep_last mid.data
      (["Imported on " ++ today] ++
        ((if truthyS fd.extruder_temp && truthyS fd.bed_temp then
            ["Temps: " ++ fd.extruder_temp.getD "" ++ "°C/" ++ fd.bed_temp.getD "" ++ "°C"]
          else []) ++
          (if truthyS fd.vendor_description then [fd.vendor_description.getD ""] else [])))
      ("ImportID: [" ++ mid ++ "]") hmid
  simpa [List.append_assoc] using this

/-! ## Helper lemmas: the spool loop -/

theorem isDupB_of_mem {sp : Spool} {l : List Spool} {m : String}
    (h : sp ∈ l) (hc : containsSub m sp.comment = true) : isDupB l m = true := by
  unfold isDupB
  rw [List.any_eq_true]
  exact ⟨sp, h, hc⟩

theorem isDupB_append_left {a b : List Spool} {m : String}
    (h : isDupB a m = true) : isDupB (a ++ b) m = true := by
  unfold isDupB at h ⊢
  rw [List.any_append, h, Bool.true_or]

theorem isDupB_append_right {a b : List Spool} {m : String}
    (h : isDupB b m = true) : isDupB (a ++ b) m = true := by
  unfold isDupB at h ⊢
  rw [List.any_append, h, Bool.or_true]

/-- A loop over indices that are all duplicates touches nothing. -/
theorem spoolLoop_all_dup (api : Api) (fd : FilamentData) (src : String) (fid : Nat)
    (es : List Spool) (l : List Nat)
    (h : ∀ i ∈ l, isDupB es (generate_import_id src fd i) = true) :
    spoolLoop api fd src fid es l = (true, [], []) := by
  induction l with
  | nil => rfl
  | cons i rest ih =>
    have hd := h i (by simp)
    simp only [spoolLoop, hd, if_pos]
    exact ih (fun j hj => h j (by simp [hj]))

/-- Indices POSTed by the loop come from the index list and were not
duplicates. -/
theorem spoolLoop_posted_mem (api : Api) (fd : FilamentData) (src : String) (fid : Nat)
    (es : List Spool) (l : List Nat) (i : Nat)
    (h : i ∈ (spoolLoop api fd src fid es l).2.1) :
    i ∈ l ∧ isDupB es (generate_import_id src fd i) = false := by
  induction l with
  | nil => simp [spoolLoop] at h
  | cons j rest ih =>
    by_cases hd : isDupB es (generate_import_id src fd j) = true
    · simp only [spoolLoop, hd, if_pos] at h
      obtain ⟨hmem, hnd⟩ := ih h
      exact ⟨by simp [hmem], hnd⟩
    · have hd' : isDupB es (generate_import_id src fd j) = false := by
        revert hd; cases isDupB es (generate_import_id src fd j) <;> simp
      by_cases hok : api.spoolPostOk j = true
      · simp only [spoolLoop, hd', Bool.false_eq_true, if_false, hok, if_pos] at h
        rcases List.mem_cons.mp h with hij | hmem
        · subst hij; exact ⟨by simp, hd'⟩
        · obtain ⟨hmem', hnd⟩ := ih hmem
          exact ⟨by simp [hmem'], hnd⟩
      · have hok' : api.spoolPostOk j = false := by
          revert hok; cases api.spoolPostOk j <;> simp
        simp only [spoolLoop, hd', Bool.false_eq_true, if_false, hok', if_false] at h
        rcases List.mem_singleton.mp h with hij
        subst hij; exact ⟨by simp, hd'⟩

/-- On a successful loop every index was either a duplicate or got its
spool created with the marker-carrying comment. -/
theorem spoolLoop_success_cover (api : Api) (fd : FilamentData) (src : String) (fid : Nat)
    (es : List Spool) (l : List Nat)
    (h : (spoolLoop api fd src fid es l).1 = true) :
    ∀ i ∈ l, isDupB es (generate_import_id src fd i) = true ∨
      mkSpool api.today fd fid (generate_import_id src fd i) ∈ (spoolLoop api fd src fid es l).2.2 := by
  induction l with
  | nil => simp
  | cons j rest ih =>
    intro i hi
    by_cases hd : isDupB es (generate_import_id src fd j) = true
    · simp only [spoolLoop, hd, if_pos] at h ⊢
      rcases List.mem_cons.mp hi with hij | hmem
      · subst hij; exact Or.inl hd
      · exact ih h i hmem
    · have hd' : isDupB es (generate_import_id src fd j) = false := by
        revert hd; cases isDupB es (generate_import_id src fd j) <;> simp
      by_cases hok : api.spoolPostOk j = true
      · simp only [spoolLoop, hd', Bool.false_eq_true, if_false, hok, if_pos] at h ⊢
        rcases List.mem_cons.mp hi with hij | hmem
        · subst hij
          exact Or.inr (List.mem_cons_self _ _)
        · rcases ih h i hmem with hc | hc
          · exact Or.inl hc
          · exact Or.inr (List.mem_cons_of_mem _ hc)
      · have hok' : api.spoolPostOk j = false := by
          revert hok; cases api.spoolPostOk j <;> simp
        simp only [spoolLoop, hd', Bool.false_eq_true, if_false, hok', if_false] at h

/-- A failing POST ends the loop: the loop reports failure and nothing at
a larger index was POSTed. -/
theorem spoolLoop_fail_stop (api : Api) (fd : FilamentData) (src : String) (fid : Nat)
    (es : List Spool) (l : List Nat) (j : Nat)
    (hsorted : l.Pairwise (fun a b => a < b))
    (hj : j ∈ (spoolLoop api fd src fid es l).2.1)
    (hfail : api.spoolPostOk j = false) :
    (spoolLoop api fd src fid es l).1 = false ∧
      ∀ k ∈ (spoolLoop api fd src fid es l).2.1, k ≤ j := by
  induction l with
  | nil => simp [spoolLoop] at hj
  | cons i rest ih =>
    have hsorted' := (List.pairwise_cons.mp hsorted).2
    have hlt := (List.pairwise_cons.mp hsorted).1
    by_cases hd : isDupB es (generate_import_id src fd i) = true
    · simp only [spoolLoop, hd, if_pos] at hj ⊢
      exact ih hsorted' hj
    · have hd' : isDupB es (generate_import_id src fd i) = false := by
        revert hd; cases isDupB es (generate_import_id src fd i) <;> simp
      by_cases hok : api.spoolPostOk i = true
      · simp only [spoolLoop, hd', Bool.false_eq_true, if_false, hok, if_pos] at hj ⊢
        rcases List.mem_cons.mp hj with hij | hmem
        · subst hij
          rw [hok] at hfail
          exact absurd hfail (by simp)
        · obtain ⟨hf, hbound⟩ := ih hsorted' hmem
          refine ⟨hf, ?_⟩
          intro k hk
          rcases List.mem_cons.mp hk with hki | hkm
          · subst hki
            have hjrest := (spoolLoop_posted_mem api fd src fid es rest j hmem).1
            exact Nat.le_of_lt (hlt j hjrest)
          · exact hbound k hkm
      · have hok' : api.spoolPostOk i = false := by
          revert hok; cases api.spoolPostOk i <;> simp
        simp only [spoolLoop, hd', Bool.false_eq_true, if_false, hok', if_false] at hj ⊢
        rcases List.mem_singleton.mp hj with hij
        subst hij
        constructor
        · simp
        · intro k hk
          rcases List.mem_singleton.mp hk with h
          subst h
          exact Nat.le_refl _

/-- A fully duplicate record leaves the catalog and the in-memory list
untouched and still succeeds. -/
theorem import_full_dup {api : Api} {fd : FilamentData} {vid : Nat}
    {ex : List Filament} {src : String}
    (h : fullyDupB api fd vid ex src = true) :
    (import_filament api fd vid ex src).success = true ∧
    (import_filament api fd vid ex src).posted = [] ∧
    (import_filament api fd vid ex src).newSpools = [] ∧
    (import_filament api fd vid ex src).filamentCreates = 0 ∧
    (import_filament api fd vid ex src).existing = ex := by
  unfold fullyDupB at h
  cases hfind : find_existing_filament fd vid ex with
  | none => rw [hfind] at h; simp at h
  | some f =>
    rw [hfind] at h
    have hall : ∀ i ∈ List.range fd.quantity,
        isDupB (api.spools f.id) (generate_import_id src fd i) = true := by
      intro i hi
      exact List.all_eq_true.mp h i hi
    have hloop := spoolLoop_all_dup api fd src f.id (api.spools f.id) (List.range fd.quantity) hall
    simp only [import_filament, hfind, hloop]
    simp

/-! ## Claim theorems -/

/-- C1.  Re-run idempotence of `import_filament`: an index whose marker is
contained in the comment of an existing spool of the target entry is
skipped (no spool POST for it), and a second run over identical input
against the catalog state a successful first run produced (its spools now
listed, its entry found by the natural key) issues zero spool POSTs and
zero entry POSTs. -/
theorem claim_C1_rerun_idempotence
    (api api₂ : Api) (fd : FilamentData) (vid : Nat) (ex ex₂ : List Filament) (src : String) :
    (∀ fid i, (import_filament api fd vid ex src).filamentId = some fid →
       isDupB (api.spools fid) (generate_import_id src fd i) = true →
       i ∉ (import_filament api fd vid ex src).posted) ∧
    (∀ fid f,
       (import_filament api fd vid ex src).success = true →
       (import_filament api fd vid ex src).filamentId = some fid →
       find_existing_filament fd vid ex₂ = some f →
       f.id = fid →
       api₂.spools fid = api.spools fid ++ (import_filament api fd vid ex src).newSpools →
       (import_filament api₂ fd vid ex₂ src).posted = [] ∧
       (import_filament api₂ fd vid ex₂ src).success = true ∧
       (import_filament api₂ fd vid ex₂ src).filamentCreates = 0) := by
  constructor
  · intro fid i hfid hdup hmem
    cases hfind : find_existing_filament fd vid ex with
    | some f =>
      simp only [import_filament, hfind] at hfid hmem
      have hf : f.id = fid := by simpa using hfid
      subst hf
      have := (spoolLoop_posted_mem api fd src f.id (api.spools f.id) (List.range fd.quantity) i hmem).2
      rw [this] at hdup
      exact absurd hdup (by simp)
    | none =>
      cases hpost : api.filamentPost with
      | none => simp [import_filament, hfind, hpost] at hmem
      | some nf =>
        simp only [import_filament, hfind, hpost] at hfid hmem
        have hf : nf.id = fid := by simpa using hfid
        subst hf
        have := (spoolLoop_posted_mem api fd src nf.id (api.spools nf.id) (List.range fd.quantity) i hmem).2
        rw [this] at hdup
        exact absurd hdup (by simp)
  · intro fid f hsucc hfid hfind₂ hfidf hspools₂
    have hcover : ∀ i ∈ List.range fd.quantity,
        isDupB (api₂.spools fid) (generate_import_id src fd i) = true := by
      intro i hi
      have hmarker := marker_in_build_comment api.today fd
        (generate_import_id src fd i) (marker_ne_empty src fd i)
      cases hfind : find_existing_filament fd vid ex with
      | some f₁ =>
        simp only [import_filament, hfind] at hsucc hfid
        have hf : f₁.id = fid := by simpa using hfid
        subst hf
        have hc := spoolLoop_success_cover api fd src f₁.id (api.spools f₁.id)
          (List.range fd.quantity) hsucc i hi
        rw [hspools₂]
        rcases hc with hduphere | hmemnew
        · exact isDupB_append_left hduphere
        · simp only [import_filament, hfind]
          exact isDupB_append_right (isDupB_of_mem hmemnew hmarker)
      | none =>
        cases hpost : api.filamentPost with
        | none => simp [import_filament, hfind, hpost] at hsucc
        | some nf =>
          simp only [import_filament, hfind, hpost] at hsucc hfid
          have hf : nf.id = fid := by simpa using hfid
          subst hf
          have hc := spoolLoop_success_cover api fd src nf.id (api.spools nf.id)
            (List.range fd.quantity) hsucc i hi
          rw [hspools₂]
          rcases hc with hduphere | hmemnew
          · exact isDupB_append_left hduphere
          · simp only [import_filament, hfind, hpost]
            exact isDupB_append_right (isDupB_of_mem hmemnew hmarker)
    have hloop := spoolLoop_all_dup api₂ fd src f.id (api₂.spools f.id)
      (List.range fd.quantity) (by rw [hfidf]; exact hcover)
    simp only [import_filament, hfind₂, hloop]
    simp

/-- C1 witness: the concrete second run over the catalog state of the
first run issues no spool POST and no entry POST. -/
theorem claim_C1_rerun_idempotence_witness :
    (import_filament fxApiRun2 fxFd2 1 fxEx2 "receipt.json").posted = [] ∧
    (import_filament fxApiRun2 fxFd2 1 fxEx2 "receipt.json").success = true ∧
    (import_filament fxApiRun2 fxFd2 1 fxEx2 "receipt.json").filamentCreates = 0 :=
  (claim_C1_rerun_idempotence fxApiRun1 fxApiRun2 fxFd2 1 [] fxEx2 "receipt.json").2
    5 { id := 5, vendorId := some 1, name := "PLA Red" }
    (by decide) (by decide) (by decide) rfl rfl

/-- C2.  Entry reconciliation by natural key: a vendor-id plus
case-insensitive name match in the existing-entries list means the find
succeeds; a found entry is reused (no filament POST, its id drives the
spool phase, the in-memory list is unchanged, and marker-duplicate indices
are not POSTed); with no match one filament POST is issued and a
successful response is appended to the in-memory list; and within a batch
the record after a creating record reconciles against the appended entry,
so the batch issues exactly one filament POST. -/
theorem claim_C2_entry_reconciliation
    (api : Api) (fd : FilamentData) (vid : Nat) (ex : List Filament) (src : String) :
    ((∃ f ∈ ex, f.vendorId = some vid ∧
        lowerStr f.name = lowerStr (fd.material ++ " " ++ fd.color)) →
      ∃ f, find_existing_filament fd vid ex = some f ∧ f.vendorId = some vid ∧
        lowerStr f.name = lowerStr (fd.material ++ " " ++ fd.color)) ∧
    (∀ f, find_existing_filament fd vid ex = some f →
      (import_filament api fd vid ex src).filamentCreates = 0 ∧
      (import_filament api fd vid ex src).filamentId = some f.id ∧
      (import_filament api fd vid ex src).existing = ex ∧
      (∀ i, isDupB (api.spools f.id) (generate_import_id src fd i) = true →
        i ∉ (import_filament api fd vid ex src).posted)) ∧
    (find_existing_filament fd vid ex = none →
      (import_filament api fd vid ex src).filamentCreates = 1 ∧
      ∀ nf, api.filamentPost = some nf →
        (import_filament api fd vid ex src).existing = ex ++ [nf]) ∧
    (∀ (benv : BatchEnv) (fd₂ : FilamentData) (rec₁ rec₂ : AttrRec) (vid₂ : Nat)
        (nf : Filament) (acc : BatchAcc),
      benv.vendor_data 0 = some rec₁ → benv.vendor_id 0 = some vid →
      benv.vendor_data 1 = some rec₂ → benv.vendor_id 1 = some vid₂ →
      benv.api 0 = api →
      find_existing_filament (update_fd fd rec₁) vid ex = none →
      api.filamentPost = some nf →
      nf.vendorId = some vid₂ →
      lowerStr nf.name =
        lowerStr ((update_fd fd₂ rec₂).material ++ " " ++ (update_fd fd₂ rec₂).color) →
      (runBatchAux benv src [fd, fd₂] 0 ex acc).1.filamentPosts = acc.filamentPosts + 1) := by
  refine ⟨?_, ?_, ?_, ?_⟩
  · rintro ⟨f, hmem, hvid, hname⟩
    have hsome : (ex.find? (fun g => g.vendorId == some vid &&
        lowerStr g.name == lowerStr (fd.material ++ " " ++ fd.color))).isSome := by
      rw [List.find?_isSome]
      exact ⟨f, hmem, by simp [hvid, hname]⟩
    obtain ⟨g, hg⟩ := Option.isSome_iff_exists.mp hsome
    have hgp := List.find?_some hg
    simp only [Bool.and_eq_true, beq_iff_eq] at hgp
    exact ⟨g, hg, hgp.1, hgp.2⟩
  · intro f hfind
    refine ⟨?_, ?_, ?_, ?_⟩
    · simp [import_filament, hfind]
    · simp [import_filament, hfind]
    · simp [import_filament, hfind]
    · intro i hdup hmem
      simp only [import_filament, hfind] at hmem
      have := (spoolLoop_posted_mem api fd src f.id (api.spools f.id)
        (List.range fd.quantity) i hmem).2
      rw [this] at hdup
      exact absurd hdup (by simp)
  · intro hfind
    constructor
    · cases hpost : api.filamentPost <;> simp [import_filament, hfind, hpost]
    · intro nf hpost
      simp [import_filament, hfind, hpost]
  · intro benv fd₂ rec₁ rec₂ vid₂ nf acc h1 h2 h3 h4 hapi hfindnone hpost hnfvid hnfname
    have himp1 : import_filament (benv.api 0) (update_fd fd rec₁) vid ex src =
        import_filament api (update_fd fd rec₁) vid ex src := by rw [hapi]
    have hr1creates : (import_filament api (update_fd fd rec₁) vid ex src).filamentCreates = 1 := by
      simp [import_filament, hfindnone, hpost]
    have hr1ex : (import_filament api (update_fd fd rec₁) vid ex src).existing = ex ++ [nf] := by
      simp [import_filament, hfindnone, hpost]
    have hfind₂ : ∃ g, find_existing_filament (update_fd fd₂ rec₂) vid₂ (ex ++ [nf]) = some g := by
      have hsome : ((ex ++ [nf]).find? (fun g => g.vendorId == some vid₂ &&
          lowerStr g.name == lowerStr ((update_fd fd₂ rec₂).material ++ " " ++
            (update_fd fd₂ rec₂).color))).isSome := by
        rw [List.find?_isSome]
        exact ⟨nf, by simp, by simp [hnfvid, hnfname]⟩
      exact Option.isSome_iff_exists.mp hsome
    obtain ⟨g, hg⟩ := hfind₂
    have hr2creates :
        (import_filament (benv.api 1) (update_fd fd₂ rec₂) vid₂ (ex ++ [nf]) src).filamentCreates = 0 := by
      simp [import_filament, hg]
    simp only [runBatchAux, h1, h2, h3, h4, himp1, hr1ex]
    simp [hr1creates, hr2creates]

/-- C2 witness: with the PLA Red entry of vendor 1 already present, the
concrete record is reconciled against it with no filament POST. -/
theorem claim_C2_entry_reconciliation_witness :
    (import_filament fxApiDup fxFd 1 [fxEntry] "dummy.json").filamentCreates = 0 ∧
    (import_filament fxApiDup fxFd 1 [fxEntry] "dummy.json").filamentId = some 101 ∧
    (import_filament fxApiDup fxFd 1 [fxEntry] "dummy.json").existing = [fxEntry] := by
  have h := (claim_C2_entry_reconciliation fxApiDup fxFd 1 [fxEntry] "dummy.json").2.1
    fxEntry (by decide)
  exact ⟨h.1, h.2.1, h.2.2.1⟩

/-- C3 counterexample: quantity 3, no duplicates, spool POST fails at loop
index 0.  The claim says the remaining indices are still attempted; the
code returns from the except branch at once, so only index 0 was POSTed
(indices 1 and 2, though below the quantity and not duplicates, are never
attempted). -/
theorem claim_C3_counterexample :
    (import_filament fxApiFail0 fxFd3 1 fxEx3 "r.json").success = false ∧
    (import_filament fxApiFail0 fxFd3 1 fxEx3 "r.json").posted = [0] ∧
    1 < fxFd3.quantity ∧
    isDupB (fxApiFail0.spools 7) (generate_import_id "r.json" fxFd3 1) = false := by
  decide

/-- C3 amended.  Entry-creation failure is fatal for the record and no
instance is attempted (this half of the claim holds); but an instance
write failure is not best-effort: the loop stops at the failing index, the
record reports failure, and no index beyond the failing one is attempted. -/
theorem claim_C3_instance_error_handling
    (api : Api) (fd : FilamentData) (vid : Nat) (ex : List Filament) (src : String) :
    (find_existing_filament fd vid ex = none → api.filamentPost = none →
      import_filament api fd vid ex src =
        { success := false, existing := ex, filamentCreates := 1,
          filamentId := none, posted := [], newSpools := [] }) ∧
    (∀ j, j ∈ (import_filament api fd vid ex src).posted → api.spoolPostOk j = false →
      (import_filament api fd vid ex src).success = false ∧
      ∀ k ∈ (import_filament api fd vid ex src).posted, k ≤ j) := by
  constructor
  · intro hfind hpost
    simp [import_filament, hfind, hpost]
  · intro j hj hfail
    cases hfind : find_existing_filament fd vid ex with
    | some f =>
      simp only [import_filament, hfind] at hj ⊢
      exact spoolLoop_fail_stop api fd src f.id (api.spools f.id) (List.range fd.quantity) j
        (List.pairwise_lt_range fd.quantity) hj hfail
    | none =>
      cases hpost : api.filamentPost with
      | none => simp [import_filament, hfind, hpost] at hj
      | some nf =>
        simp only [import_filament, hfind, hpost] at hj ⊢
        exact spoolLoop_fail_stop api fd src nf.id (api.spools nf.id) (List.range fd.quantity) j
          (List.pairwise_lt_range fd.quantity) hj hfail

/-- C3 witness: in the concrete failing scenario the record fails and
every POSTed index is at most the failing index 0. -/
theorem claim_C3_instance_error_handling_witness :
    (import_filament fxApiFail0 fxFd3 1 fxEx3 "r.json").success = false ∧
    ∀ k ∈ (import_filament fxApiFail0 fxFd3 1 fxEx3 "r.json").posted, k ≤ 0 :=
  (claim_C3_instance_error_handling fxApiFail0 fxFd3 1 fxEx3 "r.json").2
    0 (by decide) (by decide)

/-- C4.  Marker determinism and shape: the marker is exactly the
concatenation of the fixed segments around the file name, the item key and
the index; it is a pure function (equal inputs give equal output); two
records differing only in the interpolated price string give different
markers; and for one record the markers of two indices share the whole
stem and differ only in the trailing index digits. -/
theorem claim_C4_marker_determinism
    (src src' : String) (fd fd' : FilamentData) (i j : Nat) (p p' : String) :
    (generate_import_id src fd i =
      "imported_from:" ++ baseName src ++ "|item:" ++ fd.brand ++ "-" ++ fd.material ++ "-" ++
        fd.color ++ "-" ++ fd.price ++ "|index:" ++ Nat.repr i) ∧
    (src = src' → fd = fd' → i = j →
      generate_import_id src fd i = generate_import_id src' fd' j) ∧
    (p ≠ p' →
      generate_import_id src { fd with price := p } i ≠
        generate_import_id src { fd with price := p' } i) ∧
    (generate_import_id src fd i = markerStem src fd ++ Nat.repr i ∧
      generate_import_id src fd j = markerStem src fd ++ Nat.repr j) := by
  refine ⟨rfl, ?_, ?_, rfl, rfl⟩
  · intro hs hf hij
    rw [hs, hf, hij]
  · intro hne heq
    have hdata := congrArg String.data heq
    simp only [generate_import_id, String.data_append, List.append_assoc] at hdata
    replace hdata := List.append_cancel_left hdata
    replace hdata := List.append_cancel_left hdata
    replace hdata := List.append_cancel_left hdata
    replace hdata := List.append_cancel_left hdata
    replace hdata := List.append_cancel_left hdata
    replace hdata := List.append_cancel_left hdata
    replace hdata := List.append_cancel_left hdata
    replace hdata := List.append_cancel_left hdata
    replace hdata := List.append_cancel_left hdata
    have : p.data = p'.data := by
      simpa using List.append_cancel_right (by simpa [List.append_assoc] using hdata :
        p.data ++ ("|index:".data ++ (Nat.repr i).data) =
          p'.data ++ ("|index:".data ++ (Nat.repr i).data))
    exact hne (String.ext this)

/-- C4 witness: two concrete records differing only in the price give
different markers. -/
theorem claim_C4_marker_determinism_witness :
    generate_import_id "receipt.json" { fxFd with price := "19.99" } 0 ≠
      generate_import_id "receipt.json" { fxFd with price := "24.99" } 0 :=
  (claim_C4_marker_determinism "receipt.json" "receipt.json" fxFd fxFd 0 0
    "19.99" "24.99").2.2.1 (by decide)

/-- When every element converts (or is a skipped non-object) the loop
returns exactly the converted objects. -/
theorem validateLoop_ok (xs : List JVal) (h : ∀ v ∈ xs, recLoadable v = true) :
    validateLoop xs = some (xs.filterMap recParse) := by
  induction xs with
  | nil => rfl
  | cons v rest ih =>
    have hv := h v (by simp)
    have hrest := ih (fun w hw => h w (by simp [hw]))
    cases v with
    | obj kvs =>
      have hsome : (parseFields kvs).isSome = true := by simpa [recLoadable] using hv
      obtain ⟨vf, hvf⟩ := Option.isSome_iff_exists.mp hsome
      simp [validateLoop, hvf, hrest, recParse, List.filterMap_cons]
    | num x => simp [validateLoop, hrest, List.filterMap_cons, recParse]
    | str s => simp [validateLoop, hrest, List.filterMap_cons, recParse]
    | bool b => simp [validateLoop, hrest, List.filterMap_cons, recParse]
    | null => simp [validateLoop, hrest, List.filterMap_cons, recParse]
    | arr ys => simp [validateLoop, hrest, List.filterMap_cons, recParse]

/-- One failing conversion anywhere makes the whole loop fail, whatever
came before or after. -/
theorem validateLoop_err (pre : List JVal) (kvs : List (String × JVal)) (post : List JVal)
    (h : parseFields kvs = none) :
    validateLoop (pre ++ JVal.obj kvs :: post) = none := by
  induction pre with
  | nil => simp [validateLoop, h]
  | cons v pre' ih =>
    cases v with
    | obj kvs' =>
      cases hp : parseFields kvs' with
      | none => simp [validateLoop, hp]
      | some vf => simp [validateLoop, hp, ih]
    | num x => simpa [validateLoop] using ih
    | str s => simpa [validateLoop] using ih
    | bool b => simpa [validateLoop] using ih
    | null => simpa [validateLoop] using ih
    | arr ys => simpa [validateLoop] using ih

/-- C5 counterexample: a well-formed record followed by a record whose
diameter fails `float()`.  The claim says only the failing record is
skipped; the code returns the empty list from the file-level except, so
the well-formed record is dropped too. -/
theorem claim_C5_counterexample :
    (load_filaments_from_json (JVal.arr [fxGoodRec])).length = 1 ∧
    load_filaments_from_json (JVal.arr [fxGoodRec, fxBadRec]) = [] := by
  constructor <;> rfl

/-- C5 amended.  An element that is not an object is skipped individually
(with a warning) and loading continues: when every element is a skipped
non-object or a converting object, exactly the converted records are
returned.  But a record whose required numeric fields fail to parse aborts
the whole load: the exception is caught at file level and the empty list
is returned, dropping every other record of the file. -/
theorem claim_C5_malformed_input (xs : List JVal) :
    ((∀ v ∈ xs, recLoadable v = true) →
      load_filaments_from_json (JVal.arr xs) = xs.filterMap recParse) ∧
    (∀ pre kvs post, xs = pre ++ JVal.obj kvs :: post → parseFields kvs = none →
      load_filaments_from_json (JVal.arr xs) = []) := by
  constructor
  · intro h
    simp [load_filaments_from_json, validateLoop_ok xs h]
  · intro pre kvs post hxs h
    subst hxs
    simp [load_filaments_from_json, validateLoop_err pre kvs post h]

/-- C5 witness: a good record plus a skipped non-object element load to
exactly the converted good record. -/
theorem claim_C5_malformed_input_witness :
    load_filaments_from_json (JVal.arr [fxGoodRec, fxSkipRec]) =
      ([fxGoodRec, fxSkipRec].filterMap recParse) :=
  (claim_C5_malformed_input [fxGoodRec, fxSkipRec]).1 (by decide)

/-- A key present in the left record resolves there also after appending. -/
theorem lookupA_append_of_hasKey (rec l : AttrRec) (k : String)
    (h : hasKey k rec = true) : lookupA k (rec ++ l) = lookupA k rec := by
  induction rec with
  | nil => simp [hasKey] at h
  | cons p rest ih =>
    by_cases hp : (p.1 == k) = true
    · simp [lookupA, List.find?_cons, hp]
    · have hp' : (p.1 == k) = false := by
        revert hp; cases (p.1 == k) <;> simp
      have hrest : hasKey k rest = true := by
        simpa [hasKey, hp'] using h
      simpa [lookupA, List.find?_cons, hp'] using ih hrest

theorem hasKey_append_left {rec : AttrRec} (l : AttrRec) {k : String}
    (h : hasKey k rec = true) : hasKey k (rec ++ l) = true := by
  unfold hasKey at h ⊢
  rw [List.any_append, h, Bool.true_or]

theorem hasAll4_enrich {rec : AttrRec} (defs : AttrRec)
    (h : hasAll4 rec = true) : hasAll4 (enrichWithDefaults rec defs) = true := by
  unfold hasAll4 at h ⊢
  simp only [Bool.and_eq_true] at h ⊢
  unfold enrichWithDefaults
  exact ⟨⟨⟨hasKey_append_left _ h.1.1.1, hasKey_append_left _ h.1.1.2⟩,
    hasKey_append_left _ h.1.2⟩, hasKey_append_left _ h.2⟩

/-- Any record the first matching branch returns comes from the vendor
table. -/
theorem vendorBranch1_mem (vendors : List (String × List (String × AttrRec)))
    (bn mn : String) (r : AttrRec) (h : vendorBranch1 vendors bn mn = some r) :
    ∃ v ∈ vendors, ∃ m ∈ v.2, m.2 = r := by
  unfold vendorBranch1 at h
  by_cases hany : vendors.any (fun v => lowerStr v.1 == bn) = true
  · rw [if_pos hany] at h
    cases hfv : vendors.find? (fun v => lowerStr v.1 == bn) with
    | none => rw [hfv] at h; exact absurd h (by simp)
    | some v =>
      rw [hfv] at h
      have hvmem := List.mem_of_find?_eq_some hfv
      obtain ⟨vn, mats⟩ := v
      simp only [] at h
      cases hfm : List.find? (fun p => lowerStr p.1 == lowerStr mn) mats with
      | some m =>
        rw [hfm] at h
        exact ⟨(vn, mats), hvmem, m, List.mem_of_find?_eq_some hfm, by simpa using h⟩
      | none =>
        rw [hfm] at h
        cases hfp : List.find? (fun p => containsSub (lowerStr mn) (lowerStr p.1)) mats with
        | some m =>
          rw [hfp] at h
          exact ⟨(vn, mats), hvmem, m, List.mem_of_find?_eq_some hfp, by simpa using h⟩
        | none => rw [hfp] at h; exact absurd h (by simp)
  · rw [if_neg hany] at h
    exact absurd h (by simp)

/-- Any record the second matching branch returns comes from the scanned
vendor list or is the accumulator it started with. -/
theorem vendorBranch2_mem (bn mn : String) :
    ∀ (l : List (String × List (String × AttrRec))) (acc : Option AttrRec) (r : AttrRec),
      vendorBranch2 bn mn l acc = some r →
      (∃ v ∈ l, ∃ m ∈ v.2, m.2 = r) ∨ acc = some r := by
  intro l
  induction l with
  | nil => intro acc r h; exact Or.inr (by simpa [vendorBranch2] using h)
  | cons v rest ih =>
    intro acc r h
    by_cases hname : (lowerStr v.1 == lowerStr bn) = true
    · rw [vendorBranch2, if_pos hname] at h
      cases hfm : v.2.find? (fun p => p.1 == mn) with
      | some m =>
        rw [hfm] at h
        exact Or.inl ⟨v, by simp, m, List.mem_of_find?_eq_some hfm, by simpa using h⟩
      | none =>
        rw [hfm] at h
        cases hfp : v.2.find? (fun p => containsSub mn (upperStr p.1)) with
        | some m =>
          rw [hfp] at h
          by_cases ht : truthyRec (some m.2) = true
          · rw [if_pos ht] at h
            exact Or.inl ⟨v, by simp, m, List.mem_of_find?_eq_some hfp, by simpa using h⟩
          · rw [if_neg ht] at h
            rcases ih (some m.2) r h with ⟨w, hw, m', hm', he⟩ | hacc
            · exact Or.inl ⟨w, by simp [hw], m', hm', he⟩
            · exact Or.inl ⟨v, by simp, m, List.mem_of_find?_eq_some hfp, by simpa using hacc⟩
        | none =>
          rw [hfp] at h
          by_cases ht : truthyRec acc = true
          · rw [if_pos ht] at h
            exact Or.inr h
          · rw [if_neg ht] at h
            rcases ih acc r h with ⟨w, hw, m', hm', he⟩ | hacc
            · exact Or.inl ⟨w, by simp [hw], m', hm', he⟩
            · exact Or.inr hacc
    · rw [vendorBranch2, if_neg hname] at h
      rcases ih acc r h with ⟨w, hw, m', hm', he⟩ | hacc
      · exact Or.inl ⟨w, by simp [hw], m', hm', he⟩
      · exact Or.inr hacc

/-- Any record the combined resolution returns comes from the vendor
table. -/
theorem vendorDataResolved_mem (vd : VendorData) (bn mn : String) (r : AttrRec)
    (h : vendorDataResolved vd bn mn = some r) :
    ∃ v ∈ vd.vendors, ∃ m ∈ v.2, m.2 = r := by
  unfold vendorDataResolved at h
  by_cases ht : truthyRec (vendorBranch1 vd.vendors bn mn) = true
  · rw [if_pos ht] at h
    exact vendorBranch1_mem vd.vendors bn mn r h
  · rw [if_neg ht] at h
    rcases vendorBranch2_mem bn mn vd.vendors (vendorBranch1 vd.vendors bn mn) r h with hm | hacc
    · exact hm
    · exact vendorBranch1_mem vd.vendors bn mn r hacc

theorem hasAll4_ultimateFallback (brand material : String) :
    hasAll4 (ultimateFallback brand material) = true := rfl

/-- C6 counterexample: a vendor record carrying only the spool weight,
with an empty category-defaults table.  The match succeeds, the merge has
nothing to add, and the returned attributes lack density and both
temperatures; the ultimate constant fallback is never consulted once a
vendor record matched, so the claimed all-four invariant fails. -/
theorem claim_C6_counterexample :
    hasKey "spool_weight" (get_vendor_filament_data fxVDPartial "X" "PLA") = true ∧
    hasKey "density" (get_vendor_filament_data fxVDPartial "X" "PLA") = false ∧
    hasKey "extruder_temp" (get_vendor_filament_data fxVDPartial "X" "PLA") = false ∧
    hasKey "bed_temp" (get_vendor_filament_data fxVDPartial "X" "PLA") = false := by
  decide

/-- C6 amended.  The defaults merge never overrides a value already
present in the vendor record; and the non-interactive lookup result has
density, spool weight, extruder temperature and bed temperature all
present provided every record of the vendor table and of the
category-defaults table is itself complete (as the repository tables are):
a partial vendor record with no complete category default can otherwise
leave fields unset, because the constant fallback only backs up the
no-match case. -/
theorem claim_C6_attribute_completeness (vd : VendorData) (brand material : String) :
    (∀ (rec defs : AttrRec) (k : String), hasKey k rec = true →
      lookupA k (enrichWithDefaults rec defs) = lookupA k rec) ∧
    ((∀ v ∈ vd.vendors, ∀ m ∈ v.2, hasAll4 m.2 = true) →
     (∀ p ∈ vd.material_defaults, hasAll4 p.2 = true) →
     hasAll4 (get_vendor_filament_data vd brand material) = true) := by
  constructor
  · intro rec defs k h
    exact lookupA_append_of_hasKey rec _ k h
  · intro hv hd
    have hfall : hasAll4 (nonVendorFallback vd brand material (trimStr (upperStr material))) = true := by
      simp only [nonVendorFallback]
      cases hfd : List.find?
          (fun p => p.1 == extract_base_material (trimStr (upperStr material)))
          vd.material_defaults with
      | some p => exact hd p (List.mem_of_find?_eq_some hfd)
      | none => exact hasAll4_ultimateFallback brand material
    cases hvr : vendorDataResolved vd (lowerStr (trimStr brand)) (trimStr (upperStr material)) with
    | none =>
      simp only [get_vendor_filament_data, hvr]
      exact hfall
    | some rec =>
      obtain ⟨v, hvmem, m, hmmem, hm⟩ := vendorDataResolved_mem vd _ _ rec hvr
      have hrec : hasAll4 rec = true := hm ▸ hv v hvmem m hmmem
      simp only [get_vendor_filament_data, hvr]
      by_cases hne : (!rec.isEmpty) = true
      · rw [if_pos hne]
        cases hfd : List.find?
            (fun p => p.1 == extract_base_material (trimStr (upperStr material)))
            vd.material_defaults with
        | some p => exact hasAll4_enrich p.2 hrec
        | none => exact hrec
      · rw [if_neg hne]
        exact hfall

/-- C6 witness: over the complete tables of the unit-test mock every
lookup result carries all four attributes. -/
theorem claim_C6_attribute_completeness_witness :
    hasAll4 (get_vendor_filament_data fxVDComplete "TestVendor" "PLA") = true :=
  (claim_C6_attribute_completeness fxVDComplete "TestVendor" "PLA").2
    (by decide) (by decide)

/-- C7 counterexample: on the repository color table (pinned by the
assertions of its unit tests) "Galaxy Black" resolves to the exact
galaxy-black entry #2E2E2E, not to the code of "black" (#000000), so the
claimed equality of the two codes fails. -/
theorem claim_C7_counterexample :
    get_color_hex colorTable "Galaxy Black" = some "#2E2E2E" ∧
    get_color_hex colorTable "black" = some "#000000" ∧
    get_color_hex colorTable "Galaxy Black" ≠ get_color_hex colorTable "black" := by
  decide

/-- C7 amended.  The lookup normalizes by lower-casing and turning spaces
into hyphens; an exact table hit returns its value; otherwise the keys are
scanned longest-first (stable on ties) and the first key occurring as a
substring of the normalized name wins; with no hit the non-interactive
lookup returns none; normalization makes "bLaCk" resolve exactly like
"black".  "Galaxy Black" resolves to the code of "black" only when no
longer key matches first; on the repository table the exact key
galaxy-black wins, giving #2E2E2E while black gives #000000. -/
theorem claim_C7_color_lookup (colors : List (String × String)) (name : String) :
    (∀ kv, name ≠ "" →
      colors.find? (fun q => q.1 == normalizeColor name) = some kv →
      get_color_hex colors name = some kv.2) ∧
    (∀ kv, name ≠ "" →
      colors.find? (fun q => q.1 == normalizeColor name) = none →
      (sortKeysDesc colors).find? (fun q => containsSub q.1 (normalizeColor name)) = some kv →
      get_color_hex colors name = some kv.2) ∧
    (name ≠ "" →
      colors.find? (fun q => q.1 == normalizeColor name) = none →
      (sortKeysDesc colors).find? (fun q => containsSub q.1 (normalizeColor name)) = none →
      get_color_hex colors name = none) ∧
    (get_color_hex colors "bLaCk" = get_color_hex colors "black") ∧
    (get_color_hex colorTable "Galaxy Black" = some "#2E2E2E" ∧
     get_color_hex colorTable "black" = some "#000000" ∧
     get_color_hex colorTable "Red" = some "#FF0000" ∧
     get_color_hex colorTable "Light Blue" = some "#ADD8E6" ∧
     get_color_hex colorTable "Deep Blue" = some "#0000FF" ∧
     get_color_hex colorTable "Chartreuse" = none) := by
  refine ⟨?_, ?_, ?_, ?_, by decide⟩
  · intro kv hname hfind
    simp only [get_color_hex]
    rw [if_neg hname, hfind]
  · intro kv hname hfind hscan
    simp only [get_color_hex]
    rw [if_neg hname, hfind, hscan]
  · intro hname hfind hscan
    simp only [get_color_hex]
    rw [if_neg hname, hfind, hscan]
  · have hn : normalizeColor "bLaCk" = normalizeColor "black" := by decide
    simp only [get_color_hex, hn]
    rw [if_neg (by decide : ¬("bLaCk" = "")), if_neg (by decide : ¬("black" = ""))]

/-- C7 witness: the exact-match clause applied to the concrete table and
the compound name Light Blue. -/
theorem claim_C7_color_lookup_witness :
    get_color_hex colorTable "Light Blue" = some "#ADD8E6" :=
  (claim_C7_color_lookup colorTable "Light Blue").1
    ("light-blue", "#ADD8E6") (by decide) (by decide)

/-- C8.  Dry-run write freedom: with dry-run enabled the pipeline returns
right after normalization and the preview listing, so for every input and
environment it issues no vendor, entry or instance POST and no interactive
prompt, and it reports success exactly when the normalized batch is
non-empty. -/
theorem claim_C8_dry_run (benv : BatchEnv) (existing : List Filament)
    (records : List FilamentData) (src : String) :
    (process_receipt benv existing records src true).vendorPosts = 0 ∧
    (process_receipt benv existing records src true).filamentPosts = 0 ∧
    (process_receipt benv existing records src true).spoolPosts = 0 ∧
    (process_receipt benv existing records src true).prompts = 0 ∧
    (process_receipt benv existing records src true).success = !records.isEmpty := by
  unfold process_receipt
  cases records <;> simp

/-- C9.  Material classification order: the classifier returns the first
member of the fixed list PLA, PETG, ABS, ASA, TPU, WOOD, SILK occurring as
a substring of the upper-cased input, with PLA as the default when none
occurs, and its result always lies in that list. -/
theorem claim_C9_base_category (material : String) :
    extract_base_material material = baseCategorySpec material ∧
    extract_base_material material ∈ baseCategories := by
  constructor
  · simp only [extract_base_material, baseCategorySpec, baseCategories, List.find?]
    split_ifs with h1 h2 h3 h4 h5 h6 h7 <;> simp_all
  · simp only [extract_base_material, baseCategories]
    split_ifs <;> simp

/-- A batch of fully duplicate records tallies every record as a success,
issues no entry and no instance POST, and leaves the in-memory entry list
unchanged. -/
theorem runBatchAux_fullDup (benv : BatchEnv) (src : String) (existing : List Filament) :
    ∀ (records : List FilamentData) (k : Nat) (acc : BatchAcc),
      (∀ j fd, records.get? j = some fd → recordFullyDup benv existing src (k + j) fd = true) →
      (runBatchAux benv src records k existing acc).1.successCount =
          acc.successCount + records.length ∧
      (runBatchAux benv src records k existing acc).1.filamentPosts = acc.filamentPosts ∧
      (runBatchAux benv src records k existing acc).1.spoolPosts = acc.spoolPosts ∧
      (runBatchAux benv src records k existing acc).2 = existing := by
  intro records
  induction records with
  | nil =>
    intro k acc h
    simp [runBatchAux]
  | cons fd rest ih =>
    intro k acc h
    have h0 := h 0 fd (by simp)
    rw [Nat.add_zero] at h0
    unfold recordFullyDup at h0
    cases hvd : benv.vendor_data k with
    | none => rw [hvd] at h0; exact absurd h0 (by simp)
    | some rec =>
      rw [hvd] at h0
      cases hvi : benv.vendor_id k with
      | none => rw [hvi] at h0; exact absurd h0 (by simp)
      | some vid =>
        rw [hvi] at h0
        have himp := import_full_dup h0
        obtain ⟨hsucc, hposted, -, hcreates, hex⟩ := himp
        have hshift : ∀ j fd', rest.get? j = some fd' →
            recordFullyDup benv existing src (k + 1 + j) fd' = true := by
          intro j fd' hj
          have := h (j + 1) fd' (by simpa using hj)
          have harith : k + (j + 1) = k + 1 + j := by omega
          rwa [harith] at this
        have hrec := ih (k + 1) { acc with
            prompts := acc.prompts +
              (if fd.brand = "" && benv.fallbackVendor.getD "" = "" then 1 else 0) +
              benv.resolutionPrompts k
            successCount := acc.successCount + 1
            vendorPosts := acc.vendorPosts + (if benv.vendorCreated k then 1 else 0) }
          hshift
        simp only [runBatchAux, hvd, hvi, hex, hsucc, hposted, hcreates, if_pos,
          List.length_nil, List.length_cons, Nat.add_zero]
        refine ⟨?_, ?_, ?_, ?_⟩
        · rw [hrec.1]; simp only []; omega
        · rw [hrec.2.1]
        · rw [hrec.2.2.1]
        · exact hrec.2.2.2

/-- C10.  A record all of whose instances are already present still counts
as a success: `import_filament` returns true with zero spool POSTs, and a
batch in which every record is fully duplicate tallies every record as
succeeded, issues no entry or instance POST, and `process_receipt` reports
overall success (the process then exits with status zero). -/
theorem claim_C10_duplicate_rerun_success (benv : BatchEnv) (existing : List Filament)
    (records : List FilamentData) (src : String) :
    (∀ (api : Api) (fd : FilamentData) (vid : Nat) (ex : List Filament),
      fullyDupB api fd vid ex src = true →
      (import_filament api fd vid ex src).success = true ∧
      (import_filament api fd vid ex src).posted = [] ∧
      (import_filament api fd vid ex src).filamentCreates = 0) ∧
    (records ≠ [] →
     (∀ k fd, records.get? k = some fd → recordFullyDup benv existing src k fd = true) →
     (process_receipt benv existing records src false).success = true ∧
     (process_receipt benv existing records src false).succeeded = records.length ∧
     (process_receipt benv existing records src false).filamentPosts = 0 ∧
     (process_receipt benv existing records src false).spoolPosts = 0) := by
  constructor
  · intro api fd vid ex h
    have himp := import_full_dup h
    exact ⟨himp.1, himp.2.1, himp.2.2.2.1⟩
  · intro hne h
    have hb := runBatchAux_fullDup benv src existing records 0
      { successCount := 0, vendorPosts := 0, filamentPosts := 0, spoolPosts := 0, prompts := 0 }
      (by intro j fd hj; simpa using h j fd hj)
    have hie : records.isEmpty = false := by
      cases records with
      | nil => exact absurd rfl hne
      | cons a l => rfl
    have hlen : 0 < records.length := by
      cases records with
      | nil => exact absurd rfl hne
      | cons a l => simp
    simp only [process_receipt, hie, Bool.false_eq_true, if_false]
    rw [hb.1, hb.2.1, hb.2.2.1]
    simp [hlen]

/-- C10 witness: the concrete one-record batch whose single instance is
already imported is reported as one success out of one, with no POST. -/
theorem claim_C10_duplicate_rerun_success_witness :
    (process_receipt fxBenv [fxEntry] [fxFd] "dummy.json" false).success = true ∧
    (process_receipt fxBenv [fxEntry] [fxFd] "dummy.json" false).succeeded = 1 ∧
    (process_receipt fxBenv [fxEntry] [fxFd] "dummy.json" false).filamentPosts = 0 ∧
    (process_receipt fxBenv [fxEntry] [fxFd] "dummy.json" false).spoolPosts = 0 :=
  (claim_C10_duplicate_rerun_success fxBenv [fxEntry] [fxFd] "dummy.json").2
    (by simp)
    (by
      intro k fd hk
      match k with
      | 0 =>
        have hfd : fd = fxFd := by simpa using hk.symm
        subst hfd
        decide
      | n + 1 => simp at hk)
